import Mathlib

/-!
A shallow embedding of the design-space / source-selection / caching core of
`Lib/ufoProcessor/ufoOperator.py`, together with theorems settling the frozen
claims about that code.  Every definition is translated from the Python source;
external collaborators (defcon fonts, fontMath math objects, the varlib /
mutatorMath interpolation engines, the pens module) are represented by the
minimal data the operator code actually inspects.
-/

set_option autoImplicit false

namespace UFOP

/-- Decidable equality on error-or-result values, so that concrete runs of
the embedded operations can be checked by `decide`. -/
instance instDecEqExcept {ε α : Type} [DecidableEq ε] [DecidableEq α] :
    DecidableEq (Except ε α)
  | Except.error e1, Except.error e2 =>
    match decEq e1 e2 with
    | isTrue h => isTrue (by rw [h])
    | isFalse h => isFalse (fun hh => h (by cases hh; rfl))
  | Except.error _, Except.ok _ => isFalse (fun hh => Except.noConfusion hh)
  | Except.ok _, Except.error _ => isFalse (fun hh => Except.noConfusion hh)
  | Except.ok x, Except.ok y =>
    match decEq x y with
    | isTrue h => isTrue (by rw [h])
    | isFalse h => isFalse (fun hh => h (by cases hh; rfl))

/- ----------------------------------------------------------------- -/
/- Python values appearing in locations (scalars, 2-tuples, 2-lists) -/
/- ----------------------------------------------------------------- -/

/-- A value stored in a location mapping: a scalar number, a 2-tuple
`(h, v)`, or a 2-element list `[h, v]`.  The tuple/list distinction matters
because `splitAnisotropic` tests `type(val)==tuple` while `isAnisotropic`
tests `isinstance(v, (list, tuple))`. -/
inductive PyVal where
  | num (n : Int)
  | tup (a b : Int)
  | lst (a b : Int)
deriving Repr, DecidableEq

/-- A location: Python dict from axis name to value, modelled as an ordered
association list with unique keys (dict semantics). -/
abbrev PyLoc := List (String × PyVal)

/-- Embedding of `isAnisotropic` (ufoOperator.py lines 477-483): true iff some
value in the location is a list or a tuple (`isinstance(v, (list, tuple))`). -/
def isAnisotropic (location : PyLoc) : Bool :=
  location.any (fun p =>
    match p.2 with
    | PyVal.num _ => false
    | PyVal.tup _ _ => true
    | PyVal.lst _ _ => true)

/-- Embedding of `splitAnisotropic` (ufoOperator.py lines 485-496): one pass
over the location; a value of exact type tuple (`type(val)==tuple`) sends its
first component to the horizontal side and its second to the vertical side;
every other value (scalar, but also a list) is stored unchanged on both
sides. -/
def splitAnisotropic (location : PyLoc) : PyLoc × PyLoc :=
  (location.map (fun p =>
      (p.1, match p.2 with
            | PyVal.tup a _ => PyVal.num a
            | v => v)),
   location.map (fun p =>
      (p.1, match p.2 with
            | PyVal.tup _ b => PyVal.num b
            | v => v)))

/-- True iff a location value is a list or tuple; this is the per-value test
inside `isAnisotropic`. -/
def pyValIsPair (v : PyVal) : Bool :=
  match v with
  | PyVal.num _ => false
  | PyVal.tup _ _ => true
  | PyVal.lst _ _ => true

/-- True iff a location value is split component-wise by `splitAnisotropic`,
i.e. iff it is of exact type tuple. -/
def pyValSplits (v : PyVal) : Bool :=
  match v with
  | PyVal.tup _ _ => true
  | _ => false

/- ------------------------------------------------------- -/
/- immutify / memoize: cache-key canonicalization and keys -/
/- ------------------------------------------------------- -/

/-- The Python objects fed to `immutify`: numbers, strings, lists and
string-keyed dicts (the argument shapes the memoized operator methods
receive). -/
inductive PyObj where
  | int (n : Int)
  | str (s : String)
  | list (xs : List PyObj)
  | dict (kvs : List (String × PyObj))

/-- The immutable trees produced by `immutify`: scalars and tuples. -/
inductive Imm where
  | int (n : Int)
  | str (s : String)
  | tup (xs : List Imm)

mutual
/-- Decidable equality on immutified values. -/
def immDecEq : (a b : Imm) → Decidable (a = b)
  | Imm.int x, Imm.int y =>
    match decEq x y with
    | isTrue h => isTrue (by rw [h])
    | isFalse h => isFalse (fun hh => h (by cases hh; rfl))
  | Imm.int _, Imm.str _ => isFalse (fun hh => Imm.noConfusion hh)
  | Imm.int _, Imm.tup _ => isFalse (fun hh => Imm.noConfusion hh)
  | Imm.str _, Imm.int _ => isFalse (fun hh => Imm.noConfusion hh)
  | Imm.str x, Imm.str y =>
    match decEq x y with
    | isTrue h => isTrue (by rw [h])
    | isFalse h => isFalse (fun hh => h (by cases hh; rfl))
  | Imm.str _, Imm.tup _ => isFalse (fun hh => Imm.noConfusion hh)
  | Imm.tup _, Imm.int _ => isFalse (fun hh => Imm.noConfusion hh)
  | Imm.tup _, Imm.str _ => isFalse (fun hh => Imm.noConfusion hh)
  | Imm.tup xs, Imm.tup ys =>
    match immListDecEq xs ys with
    | isTrue h => isTrue (by rw [h])
    | isFalse h => isFalse (fun hh => h (by cases hh; rfl))

/-- Decidable equality on lists of immutified values. -/
def immListDecEq : (xs ys : List Imm) → Decidable (xs = ys)
  | [], [] => isTrue rfl
  | [], _ :: _ => isFalse (fun hh => List.noConfusion hh)
  | _ :: _, [] => isFalse (fun hh => List.noConfusion hh)
  | x :: xs, y :: ys =>
    match immDecEq x y, immListDecEq xs ys with
    | isTrue h1, isTrue h2 => isTrue (by rw [h1, h2])
    | isFalse h1, _ => isFalse (fun hh => h1 (by cases hh; rfl))
    | isTrue _, isFalse h2 => isFalse (fun hh => h2 (by cases hh; rfl))
end

instance : DecidableEq Imm := immDecEq

mutual
/-- Embedding of `immutify` (ufoOperator.py lines 36-50), exposed as the list
of elements of the resulting tuple.  A dict contributes, per entry, the raw
key followed by the nested immutified value; a list contributes the elements
of each immutified member (Python `extend`, flattening one level); any other
object contributes itself. -/
def immutifyElems : PyObj → List Imm
  | PyObj.int n => [Imm.int n]
  | PyObj.str s => [Imm.str s]
  | PyObj.list xs => immutifyElemsOfList xs
  | PyObj.dict kvs => immutifyElemsOfDict kvs

/-- Elements contributed by a Python list: the flattened concatenation of the
members' immutified element lists. -/
def immutifyElemsOfList : List PyObj → List Imm
  | [] => []
  | x :: xs => immutifyElems x ++ immutifyElemsOfList xs

/-- Elements contributed by a Python dict: key, then the immutified value as
one nested tuple, for each entry in order. -/
def immutifyElemsOfDict : List (String × PyObj) → List Imm
  | [] => []
  | (k, v) :: rest => Imm.str k :: Imm.tup (immutifyElems v) :: immutifyElemsOfDict rest
end

/-- Embedding of `immutify`: the tuple of the collected elements. -/
def immutify (obj : PyObj) : Imm :=
  Imm.tup (immutifyElems obj)

/-- A key of the global `_memoizeCache`:
`(function.__name__, self, immutified positional args, immutify(kwargs))`
(ufoOperator.py line 57).  The owner (`self`) is modelled by its Python object
identity. -/
structure CacheKey where
  fname : String
  owner : Nat
  args : List Imm
  kwargs : Imm
deriving DecidableEq

/-- Build the cache key the `memoize` wrapper computes for a positional-only
call (`kwargs` empty, so `immutify(kwargs)` is the empty tuple). -/
def memoKey (fname : String) (owner : Nat) (args : List PyObj) : CacheKey :=
  { fname := fname, owner := owner, args := args.map immutify,
    kwargs := immutify (PyObj.dict []) }

/-- Lookup in the memoize cache (Python `key in _memoizeCache` followed by
`_memoizeCache[key]`). -/
def cacheLookup : List (CacheKey × Int) → CacheKey → Option Int
  | [], _ => none
  | (k, v) :: rest, key => if k = key then some v else cacheLookup rest key

/-- Embedding of one call through the `memoize` wrapper (ufoOperator.py lines
52-67) for a function returning an integer result: on a hit the cached result
is returned and the cache is unchanged; on a miss the wrapped function runs on
the actual arguments and the result is stored under the canonicalized key. -/
def memoCall (cache : List (CacheKey × Int)) (fname : String) (owner : Nat)
    (args : List PyObj) (f : List PyObj → Int) : Int × List (CacheKey × Int) :=
  let key := memoKey fname owner args
  match cacheLookup cache key with
  | some r => (r, cache)
  | none => (f args, cache ++ [(key, f args)])

/- ----------------------------------------------- -/
/- Axes, default locations, discrete-value checks  -/
/- ----------------------------------------------- -/

/-- An axis descriptor.  A continuous axis has `discreteValues = none`; a
discrete axis carries its finite legal value set (the operator distinguishes
the two by `hasattr(axisObj, "values")`).  `mapForward` is the axis
forward-mapping function (`map_forward`), applied on numeric values when a
location is bent. -/
structure Axis where
  name : String
  default : Int
  mapForward : Int → Int
  discreteValues : Option (List Int)

/-- Embedding of `getOrderedDiscreteAxes` (lines 359-366): the discrete axis
descriptors in document order. -/
def getOrderedDiscreteAxes (axes : List Axis) : List Axis :=
  axes.filter (fun a => a.discreteValues.isSome)

/-- Embedding of `splitLocation` (lines 307-319): partition a location by
axis kind; the discrete part is `none` when no discrete axis name occurs in
the location.  Generic in the value type so it applies to scalar source
locations and to instance locations holding anisotropic values. -/
def splitLocation {α : Type} (axes : List Axis) (location : List (String × α)) :
    List (String × α) × Option (List (String × α)) :=
  let discreteNames := (getOrderedDiscreteAxes axes).map (fun a => a.name)
  let continuous := location.filter (fun p => !(discreteNames.contains p.1))
  let discrete := location.filter (fun p => discreteNames.contains p.1)
  if discrete.isEmpty then (continuous, none) else (continuous, discrete)

/-- The membership test `testValue in discreteAxis.values` performed by
`checkDiscreteAxisValues`: a missing value (`location.get` returned `None`)
and a non-scalar value are both outside the legal set. -/
def discreteValueOk (a : Axis) (d : List (String × PyVal)) : Bool :=
  match List.lookup a.name d with
  | some (PyVal.num n) => (a.discreteValues.getD []).contains n
  | some _ => false
  | none => false

/-- Loop body of `checkDiscreteAxisValues` over the remaining discrete axes.
When the location argument is `None` and at least one discrete axis is
declared, the very first iteration evaluates `None.get(...)` and raises an
attribute error, faithfully to lines 377-383. -/
def checkDiscreteAxisValuesAux (das : List Axis)
    (location : Option (List (String × PyVal))) : Except String Bool :=
  match das with
  | [] => Except.ok true
  | a :: rest =>
    match location with
    | none => Except.error "AttributeError: NoneType object has no attribute get"
    | some d =>
      if discreteValueOk a d then checkDiscreteAxisValuesAux rest location
      else Except.ok false

/-- Embedding of `checkDiscreteAxisValues` (lines 377-383). -/
def checkDiscreteAxisValues (axes : List Axis)
    (location : Option (List (String × PyVal))) : Except String Bool :=
  checkDiscreteAxisValuesAux (getOrderedDiscreteAxes axes) location

/-- The up-front gate of `makeOneGlyph` (lines 1011-1016): split the location,
run `checkDiscreteAxisValues` on the discrete part, return `None` (modelled
`Except.ok none`) when the check fails, and otherwise proceed to the mutator
construction (modelled `Except.ok (some ())`; the glyph-interpolation body
behind the gate delegates to the external interpolation engine and is not
part of this embedding). -/
def makeOneGlyphCheck (axes : List Axis) (location : List (String × PyVal)) :
    Except String (Option Unit) :=
  let parts := splitLocation axes location
  match checkDiscreteAxisValues axes parts.2 with
  | Except.error e => Except.error e
  | Except.ok false => Except.ok none
  | Except.ok true => Except.ok (some ())

/-- A value flowing through `newDefaultLocation`: normally a number, but when
`getGlyphMutator` passes its kwargs-capture dictionary the values seen by the
lookup are whole dictionaries. -/
inductive BiasVal where
  | num (n : Int)
  | dict (d : List (String × Int))
deriving DecidableEq

/-- Loop body of `newDefaultLocation` (lines 453-475): for each axis, take the
axis default unless the given discrete location contains the axis name, and
bend the value through `map_forward` if requested.  Bending a dictionary
value (only reachable when a dictionary is handed in as an axis value) is a
type error of the external mapping function. -/
def newDefaultLocationAux (bend : Bool) (dloc : Option (List (String × BiasVal))) :
    List Axis → Except String (List (String × BiasVal))
  | [] => Except.ok []
  | a :: rest =>
    let axisValue : BiasVal :=
      match dloc with
      | some dl =>
        match List.lookup a.name dl with
        | some v => v
        | none => BiasVal.num a.default
      | none => BiasVal.num a.default
    match (if bend then
            match axisValue with
            | BiasVal.num n => Except.ok (BiasVal.num (a.mapForward n))
            | BiasVal.dict _ =>
              (Except.error "TypeError: map_forward applied to a dict" : Except String BiasVal)
          else Except.ok axisValue) with
    | Except.error e => Except.error e
    | Except.ok v =>
      match newDefaultLocationAux bend dloc rest with
      | Except.error e => Except.error e
      | Except.ok rest2 => Except.ok ((a.name, v) :: rest2)

/-- Embedding of `newDefaultLocation` (lines 453-475). -/
def newDefaultLocation (axes : List Axis) (bend : Bool)
    (dloc : Option (List (String × BiasVal))) : Except String (List (String × BiasVal)) :=
  newDefaultLocationAux bend dloc axes

/-- The interpolation-bias computation of `getGlyphMutator` (lines 625-641):
the method captures its `discreteLocation` keyword in a kwargs dictionary
(the `**discreteLocation` parameter), so the object handed to
`newDefaultLocation` is the wrapper dictionary
`{"discreteLocation": D}`, not `D` itself. -/
def getGlyphMutatorBias (axes : List Axis) (discreteLocation : List (String × Int)) :
    Except String (List (String × BiasVal)) :=
  newDefaultLocation axes true
    (some [("discreteLocation", BiasVal.dict discreteLocation)])

/- -------------------------------------------- -/
/- Sources, fonts and per-glyph source collection -/
/- -------------------------------------------- -/

/-- A source descriptor: the fields of the designspace `SourceDescriptor` the
operator code reads during source collection.  Source locations are scalar
(per-axis numbers). -/
structure SourceDescriptor where
  name : String
  path : String
  location : List (String × Int)
  layerName : Option String
  mutedGlyphNames : List String
deriving Repr, DecidableEq

/-- A glyph of a loaded source font: the attributes the operator inspects.
Emptiness is the result of `checkGlyphIsEmpty(glyph, allowWhiteSpace=True)`
from the external pens module, carried here as an attribute of the glyph. -/
structure Glyph where
  name : String
  width : Int
  unicodes : List Nat
  isEmpty : Bool
deriving Repr, DecidableEq

/-- A loaded source font: its on-disk path, the name of its default layer and
the glyphs of that default layer (glyph-by-name lookup is all the collection
code uses). -/
structure SourceFont where
  path : String
  defaultLayerName : String
  glyphs : List Glyph
deriving Repr, DecidableEq

/-- The operator state read by `collectSourcesForGlyph`: the document axes
and sources, the loaded-fonts mapping (`None` entries mark source files that
were missing at load time), the globally muted axis names, the debug flag
(`self.logger` is attached if and only if the operator was constructed with
`debug=True`, lines 124-153) and the set of paths that exist on disk
(`os.path.exists`). -/
structure UFOOperator where
  axes : List Axis
  sources : List SourceDescriptor
  fonts : List (String × Option SourceFont)
  mutedAxisNames : Option (List String)
  debug : Bool
  existingPaths : List String

/-- Defaults dictionary `{axis name: axis default}` as built by successive
assignment over `self.doc.axes`; on a duplicated axis name the last
assignment wins, hence the reverse lookup. -/
def axisDefault (axes : List Axis) (n : String) : Option Int :=
  (axes.reverse.find? (fun a => a.name == n)).map (fun a => a.default)

/-- Embedding of `isLocalDefault` (lines 653-661): every axis named in the
location must hold that axis's default; naming an axis the document does not
declare raises a key error (`defaults[axisName]`). -/
def isLocalDefault (axes : List Axis) : List (String × Int) → Except String Bool
  | [] => Except.ok true
  | (n, v) :: rest =>
    match axisDefault axes n with
    | none => Except.error "KeyError"
    | some d => if d != v then Except.ok false else isLocalDefault axes rest

/-- Remove every entry with the given key from an association list (Python
`del new[mutedAxisName]` on a dict). -/
def removeKey (l : List (String × Int)) (n : String) : List (String × Int) :=
  l.filter (fun p => !(p.1 == n))

/-- Loop body of `filterThisLocation` over the muted axis names: a muted name
absent from the location or from the axis defaults is skipped; otherwise the
source is flagged for exclusion when its value differs from the default, and
the name is deleted from the working copy. -/
def filterThisLocationAux (axes : List Axis) (location : List (String × Int)) :
    List String → Bool × List (String × Int) → Bool × List (String × Int)
  | [], acc => acc
  | m :: ms, (ignoreSource, new) =>
    match List.lookup m location with
    | none => filterThisLocationAux axes location ms (ignoreSource, new)
    | some v =>
      match axisDefault axes m with
      | none => filterThisLocationAux axes location ms (ignoreSource, new)
      | some d =>
        filterThisLocationAux axes location ms
          (ignoreSource || (v != d), removeKey new m)

/-- Embedding of `filterThisLocation` (lines 665-684): with no muted axes
(`None` or the empty list, both falsy) the location is returned untouched;
otherwise muted axis names are removed from a working copy, and the source is
flagged for exclusion when a muted axis sits at a non-default value. -/
def filterThisLocation (axes : List Axis) (location : List (String × Int))
    (mutedAxes : Option (List String)) : Bool × List (String × Int) :=
  match mutedAxes with
  | none => (false, location)
  | some [] => (false, location)
  | some ms => filterThisLocationAux axes location ms (false, location)

/-- Embedding of `findSourceDescriptorsForDiscreteLocation` (lines 404-424):
all sources when the discrete location is `None`, otherwise the sources whose
location carries every axis named in the discrete location with the same
value, in registration order. -/
def findSourceDescriptorsForDiscreteLocation (sources : List SourceDescriptor)
    (discreteLocDict : Option (List (String × Int))) : List SourceDescriptor :=
  match discreteLocDict with
  | none => sources
  | some dl =>
    sources.filter (fun s =>
      dl.all (fun p =>
        match List.lookup p.1 s.location with
        | some w => w == p.2
        | none => false))

/-- Set-union of a glyph's code points into the running unicode collection
(Python set insertion, modelled as order-preserving insertion without
duplicates). -/
def addUnicodes (acc : List Nat) (gs : List Nat) : List Nat :=
  gs.foldl (fun acc2 u => if acc2.contains u then acc2 else acc2 ++ [u]) acc

/-- The source metadata recorded for a collected item (the `sourceInfo`
dictionary of lines 765-769). -/
structure SourceInfo where
  source : String
  glyphName : String
  layerName : String
  location : List (String × Int)
  sourceName : String
deriving Repr, DecidableEq

/-- One collected item: the continuous part of the source location, the
processed glyph handed to the math-glyph conversion (the conversion itself is
external; the glyph's attributes are kept), whether it was decomposed, and
the source metadata. -/
structure CollectedItem where
  continuousLocation : List (String × Int)
  mathGlyph : Glyph
  decomposed : Bool
  info : SourceInfo
deriving Repr, DecidableEq

/-- The running state of the collection loop: the parallel `items` and
`empties` lists, the `foundEmpty` flag (initialised once before the loop and
never reset between sources), and the unicode union. -/
structure CollectState where
  items : List CollectedItem
  empties : List (Bool × Bool)
  foundEmpty : Bool
  unicodes : List Nat
deriving Repr, DecidableEq

/-- The initial collection state (lines 695-705). -/
def initCollectState : CollectState :=
  { items := [], empties := [], foundEmpty := false, unicodes := [] }

/-- One iteration of the source loop of `collectSourcesForGlyph` (lines
706-776), in source order:
a source whose file does not exist is skipped; a source muting this glyph is
logged through `self.logger.info` with no debug guard, so on an operator
built with `debug=False` (whose `logger` is `None`) the call raises an
attribute error, and otherwise the source is skipped; then the local-default
test, axis muting, font lookup, glyph presence, the alternate-layer branch
(which dereferences the unbound name `getLayer`), unicode union, the sticky
`foundEmpty` flag, optional decomposition (an external point-pen pass that
produces a fresh glyph carrying only the width and name over the redrawn
outline) and the item/empties bookkeeping. -/
def collectStep (op : UFOOperator) (glyphName : String) (decomposeComponents : Bool)
    (st : CollectState) (sd : SourceDescriptor) : Except String CollectState :=
  if !(op.existingPaths.contains sd.path) then Except.ok st
  else if sd.mutedGlyphNames.contains glyphName then
    (if op.debug then Except.ok st
     else Except.error "AttributeError: NoneType object has no attribute info")
  else
    match isLocalDefault op.axes sd.location with
    | Except.error e => Except.error e
    | Except.ok thisIsDefault =>
      let fl := filterThisLocation op.axes sd.location op.mutedAxisNames
      if fl.1 then Except.ok st
      else
        match List.lookup sd.name op.fonts with
        | none => Except.ok st
        | some none => Except.ok st
        | some (some f) =>
          if !(f.glyphs.any (fun g => g.name == glyphName)) then Except.ok st
          else
            match sd.layerName with
            | some _ => Except.error "NameError: name getLayer is not defined"
            | none =>
              match f.glyphs.find? (fun g => g.name == glyphName) with
              | none => Except.ok st
              | some g =>
                let unicodes2 := addUnicodes st.unicodes g.unicodes
                let foundEmpty2 := st.foundEmpty || g.isEmpty
                let processThis : Glyph :=
                  if decomposeComponents then
                    { name := g.name, width := g.width, unicodes := [], isEmpty := g.isEmpty }
                  else g
                let info : SourceInfo :=
                  { source := f.path, glyphName := glyphName,
                    layerName := f.defaultLayerName, location := fl.2,
                    sourceName := sd.name }
                let item : CollectedItem :=
                  { continuousLocation := (splitLocation op.axes sd.location).1,
                    mathGlyph := processThis, decomposed := decomposeComponents,
                    info := info }
                Except.ok
                  { items := st.items ++ [item],
                    empties := st.empties ++ [(thisIsDefault, foundEmpty2)],
                    foundEmpty := foundEmpty2,
                    unicodes := unicodes2 }

/-- The source loop of `collectSourcesForGlyph`, in order. -/
def collectLoop (op : UFOOperator) (glyphName : String) (decomposeComponents : Bool) :
    List SourceDescriptor → CollectState → Except String CollectState
  | [], st => Except.ok st
  | sd :: rest, st =>
    match collectStep op glyphName decomposeComponents st sd with
    | Except.error e => Except.error e
    | Except.ok st2 => collectLoop op glyphName decomposeComponents rest st2

/-- The post-pass of `collectSourcesForGlyph` (lines 777-798): empties are
allowed exactly when some entry is flagged both default and empty; then the
items whose empties flag matches are kept, in collection order. -/
def collectPostPass (items : List CollectedItem) (empties : List (Bool × Bool)) :
    List CollectedItem :=
  let emptiesAllowed := empties.any (fun p => p.1 && p.2)
  if !emptiesAllowed then
    ((items.zip empties).filter (fun q => !q.2.2)).map (fun q => q.1)
  else
    ((items.zip empties).filter (fun q => q.2.2)).map (fun q => q.1)

/-- Embedding of `collectSourcesForGlyph` (lines 686-799): candidate sources
come from `findSourceDescriptorsForDiscreteLocation` when a discrete location
is given and from the whole source list otherwise; the loop collects items
and the emptiness post-pass filters them.  (The `defaultLocation` computed at
line 699 is never used afterwards and has no observable effect.) -/
def collectSourcesForGlyph (op : UFOOperator) (glyphName : String)
    (decomposeComponents : Bool) (discreteLocation : Option (List (String × Int))) :
    Except String (List CollectedItem × List Nat) :=
  let sources :=
    match discreteLocation with
    | some d => findSourceDescriptorsForDiscreteLocation op.sources (some d)
    | none => op.sources
  match collectLoop op glyphName decomposeComponents sources initCollectState with
  | Except.error e => Except.error e
  | Except.ok st => Except.ok (collectPostPass st.items st.empties, st.unicodes)

/- ------------------------------------------------ -/
/- Cache invalidation and structural document edits -/
/- ------------------------------------------------ -/

/-- Embedding of `changed` (lines 288-294): delete from the global cache
every key whose owner component is this operator. -/
def changed (self : Nat) (cache : List CacheKey) : List CacheKey :=
  cache.filter (fun k => !(k.owner == self))

/-- The operation names `glyphChanged` treats as glyph-scoped (line 303). -/
def glyphOpNames : List String := ["getGlyphMutator", "collectSourcesForGlyph"]

/-- The test `key[0] in (...) and key[2][0][0] == glyphName` of line 303:
for a glyph-scoped operation name, subscript the first positional argument of
the key; an empty argument tuple or an empty first tuple raises an index
error, a scalar first argument is not subscriptable. -/
def keyMatchesGlyph (k : CacheKey) (glyphName : String) : Except String Bool :=
  match glyphOpNames.contains k.fname with
  | false => Except.ok false
  | true =>
    match k.args with
    | [] => Except.error "IndexError: tuple index out of range"
    | a :: _ =>
      match a with
      | Imm.tup [] => Except.error "IndexError: tuple index out of range"
      | Imm.tup (x :: _) => Except.ok (decide (x = Imm.str glyphName))
      | _ => Except.error "TypeError: object is not subscriptable"

/-- Embedding of `glyphChanged` (lines 296-304): walk a snapshot of the cache
keys and delete every matching key.  The `self` receiver is a parameter of
the method but does not occur in the match condition. -/
def glyphChanged (self : Nat) (cache : List CacheKey) (glyphName : String) :
    Except String (List CacheKey) :=
  match cache with
  | [] => Except.ok []
  | k :: rest =>
    match keyMatchesGlyph k glyphName with
    | Except.error e => Except.error e
    | Except.ok m =>
      match glyphChanged self rest glyphName with
      | Except.error e => Except.error e
      | Except.ok rest2 => if m then Except.ok rest2 else Except.ok (k :: rest2)

/-- An instance descriptor (name and designspace location; the remaining
naming fields play no role in the claims settled here). -/
structure InstanceDescriptor where
  name : String
  location : List (String × Int)
deriving Repr, DecidableEq

/-- The wrapped designspace document: ordered axes, sources and instances. -/
structure OpDoc where
  axes : List Axis
  sources : List SourceDescriptor
  instances : List InstanceDescriptor

/-- Embedding of `addAxis` (lines 189-190): a plain passthrough to
`self.doc.addAxis`, which appends the axis descriptor; the memoize cache is
not touched. -/
def addAxis (doc : OpDoc) (cache : List CacheKey) (a : Axis) : OpDoc × List CacheKey :=
  ({ doc with axes := doc.axes ++ [a] }, cache)

/-- Embedding of `addSource` (lines 192-193): appends the source descriptor;
the memoize cache is not touched. -/
def addSource (doc : OpDoc) (cache : List CacheKey) (s : SourceDescriptor) :
    OpDoc × List CacheKey :=
  ({ doc with sources := doc.sources ++ [s] }, cache)

/-- Embedding of `addInstance` (lines 195-196): appends the instance
descriptor; the memoize cache is not touched. -/
def addInstance (doc : OpDoc) (cache : List CacheKey) (i : InstanceDescriptor) :
    OpDoc × List CacheKey :=
  ({ doc with instances := doc.instances ++ [i] }, cache)

/-- A loaded font object as `updateFonts` sees it: its Python object identity
(`id`) and its on-disk path. -/
structure FontRef where
  objId : Nat
  path : String
deriving Repr, DecidableEq

/-- Inner loop of `updateFonts` (lines 275-283) for one replacement font:
walk the loaded-fonts mapping in order; reading `haveFont.path` on a `None`
entry (a source whose file was missing at load time, recorded by `loadFonts`
at line 255) raises an attribute error; otherwise an entry whose path equals
the new font's path but whose identity differs is replaced and the update
flag is set. -/
def updateFontsInner : List (String × Option FontRef) → FontRef →
    Except String (List (String × Option FontRef) × Bool)
  | [], _ => Except.ok ([], false)
  | (_, none) :: _, _ =>
    Except.error "AttributeError: NoneType object has no attribute path"
  | (n, some hf) :: rest, nf =>
    match updateFontsInner rest nf with
    | Except.error e => Except.error e
    | Except.ok (rest2, upd) =>
      if hf.path == nf.path && !(hf.objId == nf.objId) then
        Except.ok ((n, some nf) :: rest2, true)
      else
        Except.ok ((n, some hf) :: rest2, upd)

/-- Outer loop of `updateFonts` over the provided font objects, threading the
fonts mapping and the `hasUpdated` flag. -/
def updateFontsLoop : List FontRef → List (String × Option FontRef) → Bool →
    Except String (List (String × Option FontRef) × Bool)
  | [], fonts, hasUpdated => Except.ok (fonts, hasUpdated)
  | nf :: rest, fonts, hasUpdated =>
    match updateFontsInner fonts nf with
    | Except.error e => Except.error e
    | Except.ok (fonts2, upd) => updateFontsLoop rest fonts2 (hasUpdated || upd)

/-- Embedding of `updateFonts` (lines 270-285): run the replacement loops and
call `self.changed()` (whole-owner cache invalidation) exactly when at least
one font object was replaced. -/
def updateFonts (self : Nat) (fonts : List (String × Option FontRef))
    (cache : List CacheKey) (fontObjects : List FontRef) :
    Except String (List (String × Option FontRef) × List CacheKey) :=
  match updateFontsLoop fontObjects fonts false with
  | Except.error e => Except.error e
  | Except.ok (fonts2, hasUpdated) =>
    if hasUpdated then Except.ok (fonts2, changed self cache)
    else Except.ok (fonts2, cache)

/- --------------------- -/
/- Font proportions      -/
/- --------------------- -/

/-- The coarse metrics returned by `makeFontProportions`. -/
structure FontProportions where
  unitsPerEm : Int
  ascender : Int
  descender : Int
  xHeight : Int
deriving Repr, DecidableEq

/-- Embedding of `makeFontProportions` (lines 973-992).  Whether an info
Mutator is available is a parameter (`getInfoMutator` delegates to the
external interpolation engine and yields `None` on construction failure).
With no Mutator the fixed safe defaults are returned.  With a Mutator, the
isotropic branch evaluates the unbound local name `loc` (line 982) and the
anisotropic branch the unbound local name `locHorizontal` (line 984), so both
raise a name error before any instance is made. -/
def makeFontProportions (infoMutatorAvailable : Bool)
    (location : List (String × PyVal)) : Except String FontProportions :=
  if !infoMutatorAvailable then
    Except.ok { unitsPerEm := 1000, ascender := 750, descender := -250, xHeight := 500 }
  else if !(isAnisotropic location) then
    Except.error "NameError: name loc is not defined"
  else
    Except.error "NameError: name locHorizontal is not defined"

/- ----------------------------------------- -/
/- Auxiliary predicates used in the theorems -/
/- ----------------------------------------- -/

/-- Well-formedness of a cache key for `glyphChanged`: a key of a glyph-scoped
operation must carry a first positional argument that immutified to a
non-empty tuple, so that `key[2][0][0]` is defined. -/
def keyWellFormed (k : CacheKey) : Bool :=
  match glyphOpNames.contains k.fname with
  | false => true
  | true =>
    match k.args with
    | (Imm.tup (_ :: _)) :: _ => true
    | _ => false

/-- Whether the leading argument of a cache key is the given glyph name
(the value of `key[2][0][0] == glyphName` on a well-formed key). -/
def keyLeadingIs (k : CacheKey) (glyphName : String) : Bool :=
  match k.args with
  | (Imm.tup (x :: _)) :: _ => decide (x = Imm.str glyphName)
  | _ => false

/- ----------------------------------- -/
/- Concrete fixtures for the theorems  -/
/- ----------------------------------- -/

/-- A single continuous weight axis with default 400 and identity mapping. -/
def axisWeight : Axis := { name := "weight", default := 400, mapForward := fun n => n, discreteValues := none }

/-- A continuous weight axis whose forward mapping doubles the value. -/
def axisWeightMapped : Axis := { name := "weight", default := 400, mapForward := fun n => n + n, discreteValues := none }

/-- A discrete style axis with legal values 0 and 1. -/
def axisStyle : Axis := { name := "style", default := 0, mapForward := fun n => n, discreteValues := some [0, 1] }

/-- An empty glyph "a" (whitespace-only outline) of the off-default source. -/
def glyphAEmpty : Glyph := { name := "a", width := 500, unicodes := [97], isEmpty := true }

/-- A drawn glyph "a" of the default source. -/
def glyphAFull : Glyph := { name := "a", width := 510, unicodes := [97], isEmpty := false }

/-- A drawn glyph "b". -/
def glyphBFull : Glyph := { name := "b", width := 520, unicodes := [98], isEmpty := false }

/-- An off-default source at weight 100 whose glyph "a" is empty. -/
def srcOff : SourceDescriptor :=
  { name := "S1", path := "/S1.ufo", location := [("weight", 100)], layerName := none, mutedGlyphNames := [] }

/-- The default source at weight 400 whose glyph "a" is drawn. -/
def srcDefault : SourceDescriptor :=
  { name := "S2", path := "/S2.ufo", location := [("weight", 400)], layerName := none, mutedGlyphNames := [] }

/-- Operator for the emptiness-consistency scenario: the empty-glyph source
precedes the default source in registration order. -/
def opC1 : UFOOperator :=
  { axes := [axisWeight],
    sources := [srcOff, srcDefault],
    fonts := [("S1", some { path := "/S1.ufo", defaultLayerName := "public.default", glyphs := [glyphAEmpty] }),
              ("S2", some { path := "/S2.ufo", defaultLayerName := "public.default", glyphs := [glyphAFull] })],
    mutedAxisNames := none,
    debug := true,
    existingPaths := ["/S1.ufo", "/S2.ufo"] }

/-- A source at the default location that mutes glyph "a" but carries glyphs
"a" and "b". -/
def srcMuted : SourceDescriptor :=
  { name := "SM", path := "/SM.ufo", location := [("weight", 400)], layerName := none, mutedGlyphNames := ["a"] }

/-- Operator for the muted-glyph scenario, constructed with debug disabled,
so no logger is attached. -/
def opC4 : UFOOperator :=
  { axes := [axisWeight],
    sources := [srcMuted],
    fonts := [("SM", some { path := "/SM.ufo", defaultLayerName := "public.default", glyphs := [glyphAFull, glyphBFull] })],
    mutedAxisNames := none,
    debug := false,
    existingPaths := ["/SM.ufo"] }

/-- The same operator with debug enabled (a logger is attached). -/
def opC4Debug : UFOOperator := { opC4 with debug := true }

/-- A cached glyph-mutator entry for glyph "A" owned by operator 2. -/
def keyYA : CacheKey :=
  { fname := "getGlyphMutator", owner := 2, args := [Imm.tup [Imm.str "A"]], kwargs := Imm.tup [] }

/-- A cached glyph-mutator entry for glyph "A" owned by operator 1. -/
def keyXA : CacheKey :=
  { fname := "getGlyphMutator", owner := 1, args := [Imm.tup [Imm.str "A"]], kwargs := Imm.tup [] }

/-- A cached source-collection entry for glyph "B" owned by operator 1. -/
def keyXB : CacheKey :=
  { fname := "collectSourcesForGlyph", owner := 1, args := [Imm.tup [Imm.str "B"]], kwargs := Imm.tup [] }

/-- A cached info-mutator entry (not glyph-scoped) owned by operator 2. -/
def keyInfo : CacheKey :=
  { fname := "getInfoMutator", owner := 2, args := [], kwargs := Imm.tup [] }

/-- A cached source-collection entry for glyph "A" owned by operator 1. -/
def keySelf1 : CacheKey :=
  { fname := "collectSourcesForGlyph", owner := 1, args := [Imm.tup [Imm.str "A"]], kwargs := Imm.tup [] }

/-- A cached info-mutator entry owned by operator 5. -/
def keySelf5 : CacheKey :=
  { fname := "getInfoMutator", owner := 5, args := [], kwargs := Imm.tup [] }

/-- An empty wrapped designspace document. -/
def emptyDoc : OpDoc := { axes := [], sources := [], instances := [] }

/-- A fresh continuous axis to add to a document. -/
def axisNew : Axis := { name := "width", default := 0, mapForward := fun n => n, discreteValues := none }

/-- A loaded-fonts mapping with one loaded font. -/
def fontsW : List (String × Option FontRef) := [("m", some { objId := 1, path := "p.ufo" })]

/-- A font object at the same path as the loaded one but with a different
object identity. -/
def newFontW : FontRef := { objId := 2, path := "p.ufo" }

/-- A loaded-fonts mapping whose only source file was missing at load time. -/
def fontsMissing : List (String × Option FontRef) := [("gone", none)]

/- ----------------- -/
/- Helper lemmas     -/
/- ----------------- -/

/-- Lookup in a cache whose head entry carries the looked-up key. -/
theorem cacheLookup_cons_self (k : CacheKey) (v : Int) (rest : List (CacheKey × Int)) :
    cacheLookup ((k, v) :: rest) k = some v := by
  simp [cacheLookup]

/-- Lookup commutes with mapping a function over the values of an
association list. -/
theorem lookup_map_snd (f : PyVal → PyVal) (l : PyLoc) (n : String) :
    List.lookup n (l.map (fun p => (p.1, f p.2))) = (List.lookup n l).map f := by
  induction l with
  | nil => rfl
  | cons p t ih =>
    obtain ⟨m, v⟩ := p
    simp only [List.map, List.lookup]
    cases hb : (n == m) <;> simp [hb, ih]

/-- Lookup of an axis value in the horizontal half of `splitAnisotropic`. -/
theorem splitAnisotropic_fst_lookup (loc : PyLoc) (n : String) :
    List.lookup n (splitAnisotropic loc).1 =
      (List.lookup n loc).map
        (fun v => match v with | PyVal.tup a _ => PyVal.num a | v => v) :=
  lookup_map_snd (fun v => match v with | PyVal.tup a _ => PyVal.num a | v => v) loc n

/-- Lookup of an axis value in the vertical half of `splitAnisotropic`. -/
theorem splitAnisotropic_snd_lookup (loc : PyLoc) (n : String) :
    List.lookup n (splitAnisotropic loc).2 =
      (List.lookup n loc).map
        (fun v => match v with | PyVal.tup _ b => PyVal.num b | v => v) :=
  lookup_map_snd (fun v => match v with | PyVal.tup _ b => PyVal.num b | v => v) loc n

/-- On a non-`None` location argument, `checkDiscreteAxisValues`'s loop
returns the conjunction of the per-axis membership tests. -/
theorem checkAux_some (das : List Axis) (d : List (String × PyVal)) :
    checkDiscreteAxisValuesAux das (some d) =
      Except.ok (das.all (fun a => discreteValueOk a d)) := by
  induction das with
  | nil => rfl
  | cons a rest ih =>
    simp only [checkDiscreteAxisValuesAux, List.all_cons]
    cases h : discreteValueOk a d <;> simp [h, ih]

/-- With some loaded-fonts entry recorded as `None`, the inner replacement
loop of `updateFonts` raises. -/
theorem updateFontsInner_none (fonts : List (String × Option FontRef)) (nf : FontRef)
    (h : ∃ n, (n, (none : Option FontRef)) ∈ fonts) :
    updateFontsInner fonts nf =
      Except.error "AttributeError: NoneType object has no attribute path" := by
  induction fonts with
  | nil => obtain ⟨n, hn⟩ := h; simp at hn
  | cons p t ih =>
    obtain ⟨n, hn⟩ := h
    obtain ⟨m, o⟩ := p
    cases o with
    | none => rfl
    | some hf =>
      have ht : (n, (none : Option FontRef)) ∈ t := by
        rcases List.mem_cons.mp hn with heq | hmem
        · exact absurd heq (by simp)
        · exact hmem
      simp only [updateFontsInner, ih ⟨n, ht⟩]

/- ----------------------------- -/
/- Theorems settling the claims  -/
/- ----------------------------- -/

/-- C1: the claim states that the keep/drop decision of
`collectSourcesForGlyph` is determined solely by the emptiness of the
true-default source's glyph, and that the kept items are homogeneous in
emptiness.  The code contradicts its own comment ("if the default glyph is
not empty then none can be empty", lines 778-779): the `foundEmpty` flag is
set once and never reset between sources, so when an empty non-default
source precedes the default source the default's entry is also flagged
empty, `emptiesAllowed` becomes true, and the kept list mixes the empty
off-default item with the non-empty default item.  This theorem evaluates
the embedding at that failing input: the default source S2 is at the local
default with a non-empty glyph, yet both the empty S1 item and the
non-empty S2 item are kept. -/
theorem C1_sticky_foundEmpty_flag :
    Except.map (fun r => r.1.map (fun it => (it.info.sourceName, it.mathGlyph.isEmpty)))
        (collectSourcesForGlyph opC1 "a" false none) =
      Except.ok [("S1", true), ("S2", false)] ∧
    isLocalDefault opC1.axes srcDefault.location = Except.ok true ∧
    glyphAFull.isEmpty = false := by
  exact ⟨by decide, by decide, rfl⟩

/-- C4: the claim states that a glyph muted on a source is skipped and the
call completes normally for every operator, including one constructed with
`debug=False`.  The muted-glyph branch (line 714) calls `self.logger.info`
without the `if self.debug` guard used everywhere else, and an operator
built with `debug=False` has `logger = None`, so the call raises an
attribute error instead of completing.  With debug enabled, the muted source
indeed contributes nothing for the muted glyph while its other glyphs remain
eligible. -/
theorem C4_muted_glyph_logger_crash :
    collectSourcesForGlyph opC4 "a" false none =
      Except.error "AttributeError: NoneType object has no attribute info" ∧
    Except.map (fun r => r.1.map (fun it => it.info.sourceName))
        (collectSourcesForGlyph opC4Debug "a" false none) = Except.ok [] ∧
    Except.map (fun r => r.1.map (fun it => it.info.sourceName))
        (collectSourcesForGlyph opC4Debug "b" false none) = Except.ok ["SM"] := by
  exact ⟨by decide, by decide, by decide⟩

/-- C5: the claim states that `makeFontProportions` returns the fixed safe
defaults when no info Mutator is available and otherwise the metrics
computed from the Mutator's instance, never raising.  The default branch is
correct, but whenever an info Mutator is available the isotropic branch
reads the unbound local name `loc` (line 982) and the anisotropic branch the
unbound local name `locHorizontal` (line 984), so the function raises a name
error instead of computing anything. -/
theorem C5_unbound_loc_names :
    makeFontProportions false [("weight", PyVal.num 500)] =
      Except.ok { unitsPerEm := 1000, ascender := 750, descender := -250, xHeight := 500 } ∧
    makeFontProportions true [("weight", PyVal.num 500)] =
      Except.error "NameError: name loc is not defined" ∧
    makeFontProportions true [("weight", PyVal.tup 300 700)] =
      Except.error "NameError: name locHorizontal is not defined" := by
  exact ⟨by decide, by decide, by decide⟩

/-- C9: cache-key canonicalization is not injective: `immutify` sends a
scalar `x` and the singleton list `[x]` to the same one-element tuple, so
two memoized calls on the same receiver differing only in `x` versus `[x]`
collide to one cache key and the second call returns the first call's cached
result (the wrapped function is not re-run on the list argument). -/
theorem C9_immutify_collision (x : Int) (fn : String) (own : Nat) (f : List PyObj → Int) :
    immutify (PyObj.int x) = immutify (PyObj.list [PyObj.int x]) ∧
    (memoCall ((memoCall [] fn own [PyObj.int x] f).2) fn own
        [PyObj.list [PyObj.int x]] f).1 = f [PyObj.int x] := by
  constructor
  · rfl
  · have hk : memoKey fn own [PyObj.int x] = memoKey fn own [PyObj.list [PyObj.int x]] := rfl
    have h2 : cacheLookup [(memoKey fn own [PyObj.int x], f [PyObj.int x])]
        (memoKey fn own [PyObj.list [PyObj.int x]]) = some (f [PyObj.int x]) := by
      rw [← hk]
      exact cacheLookup_cons_self _ _ _
    show (memoCall [(memoKey fn own [PyObj.int x], f [PyObj.int x])] fn own
        [PyObj.list [PyObj.int x]] f).1 = f [PyObj.int x]
    simp [memoCall, h2]

/-- On a well-formed key, the match condition of `glyphChanged` evaluates to:
the key belongs to a glyph-scoped operation and its leading argument is the
glyph name. -/
theorem keyMatchesGlyph_wf (k : CacheKey) (glyphName : String)
    (hk : keyWellFormed k = true) :
    keyMatchesGlyph k glyphName =
      Except.ok (glyphOpNames.contains k.fname && keyLeadingIs k glyphName) := by
  obtain ⟨fn, ow, argsk, kw⟩ := k
  cases hc : glyphOpNames.contains fn with
  | false => simp only [keyMatchesGlyph, hc, Bool.false_and]
  | true =>
    cases argsk with
    | nil =>
      simp only [keyWellFormed, hc] at hk
      exact Bool.noConfusion hk
    | cons a at2 =>
      cases a with
      | int n =>
        simp only [keyWellFormed, hc] at hk
        exact Bool.noConfusion hk
      | str s =>
        simp only [keyWellFormed, hc] at hk
        exact Bool.noConfusion hk
      | tup xs =>
        cases xs with
        | nil =>
          simp only [keyWellFormed, hc] at hk
          exact Bool.noConfusion hk
        | cons x xt => simp only [keyMatchesGlyph, keyLeadingIs, hc, Bool.true_and]

/-- C2 counterexample: the claim states that `glyphChanged` invoked on owner
X removes only glyph-A entries owned by X, leaving all entries of another
owner Y intact.  But the deletion condition (line 303) never consults the
owner component of the key: operator 1 invalidates glyph "A" and the glyph-A
entry owned by operator 2 is deleted. -/
theorem C2_cross_owner_removal :
    keyYA.owner = 2 ∧ glyphChanged 1 [keyYA] "A" = Except.ok [] := by
  exact ⟨rfl, by decide⟩

/-- C2 amended: `glyphChanged(glyphName)` removes exactly the cache entries
of the two glyph-scoped operations whose leading argument is `glyphName`,
regardless of owner (the `self` receiver is ignored by the deletion
condition); every other entry, in particular every entry keyed by a
different glyph, survives in order.  Stated for caches whose glyph-scoped
keys are well formed (a malformed key raises an index or type error
instead). -/
theorem C2_glyphChanged_ignores_owner (self : Nat) (glyphName : String)
    (cache : List CacheKey) (hwf : ∀ k ∈ cache, keyWellFormed k = true) :
    glyphChanged self cache glyphName =
      Except.ok (cache.filter
        (fun k => !(glyphOpNames.contains k.fname && keyLeadingIs k glyphName))) := by
  revert hwf
  induction cache with
  | nil => intro _; rfl
  | cons k rest ih =>
    intro hwf
    have hk := keyMatchesGlyph_wf k glyphName (hwf k (List.mem_cons_self k rest))
    have ihr := ih (fun k2 h2 => hwf k2 (List.mem_cons_of_mem k h2))
    simp only [glyphChanged, hk, ihr, List.filter_cons]
    cases hm : (glyphOpNames.contains k.fname && keyLeadingIs k glyphName) <;> simp [hm]

/-- C2 witness: a mixed cache with glyph-A entries under owners 1 and 2, a
glyph-B entry and a non-glyph-scoped entry; invalidating glyph "A" (called
on owner 1) removes both glyph-A entries and keeps the rest. -/
theorem C2_glyphChanged_witness :
    glyphChanged 1 [keyXA, keyXB, keyYA, keyInfo] "A" = Except.ok [keyXB, keyInfo] :=
  (C2_glyphChanged_ignores_owner 1 "A" [keyXA, keyXB, keyYA, keyInfo]
    (by decide)).trans (by decide)

/-- C3 counterexample: the claim states that adding an axis triggers
whole-instance cache invalidation.  `addAxis` (lines 189-190) is a plain
passthrough to the wrapped document and performs no cache operation: a cache
entry owned by the operator survives the call. -/
theorem C3_addAxis_keeps_cache :
    (addAxis emptyDoc [keySelf1] axisNew).2 = [keySelf1] ∧ keySelf1.owner = 1 := by
  exact ⟨rfl, rfl⟩

/-- C3 amended: `addAxis`, `addSource` and `addInstance` leave the memoize
cache untouched (no invalidation is triggered); among the operations the
claim lists, only `updateFonts` invalidates, and it removes every entry
owned by the operator exactly when at least one loaded font was replaced. -/
theorem C3_only_updateFonts_invalidates :
    (∀ (doc : OpDoc) (cache : List CacheKey) (a : Axis),
      (addAxis doc cache a).2 = cache) ∧
    (∀ (doc : OpDoc) (cache : List CacheKey) (s : SourceDescriptor),
      (addSource doc cache s).2 = cache) ∧
    (∀ (doc : OpDoc) (cache : List CacheKey) (i : InstanceDescriptor),
      (addInstance doc cache i).2 = cache) ∧
    (∀ (self : Nat) (fonts : List (String × Option FontRef)) (cache : List CacheKey)
        (fontObjects : List FontRef) (fonts2 : List (String × Option FontRef)),
      updateFontsLoop fontObjects fonts false = Except.ok (fonts2, true) →
      updateFonts self fonts cache fontObjects = Except.ok (fonts2, changed self cache)) ∧
    (∀ (self : Nat) (cache : List CacheKey) (k : CacheKey),
      k ∈ changed self cache → k.owner ≠ self) := by
  refine ⟨fun _ _ _ => rfl, fun _ _ _ => rfl, fun _ _ _ => rfl, ?_, ?_⟩
  · intro self fonts cache fontObjects fonts2 h
    simp [updateFonts, h]
  · intro self cache k hk
    simp only [changed, List.mem_filter] at hk
    intro he
    rw [he] at hk
    simp at hk

/-- C3 witness: replacing the loaded font at path `p.ufo` with a different
object triggers `changed`, which empties the owner's cache entries. -/
theorem C3_updateFonts_witness :
    updateFonts 5 fontsW [keySelf5] [newFontW] =
      Except.ok ([("m", some newFontW)], []) :=
  (C3_only_updateFonts_invalidates.2.2.2.1 5 fontsW [keySelf5] [newFontW]
    [("m", some newFontW)] (by decide)).trans (by decide)

/-- C6 counterexample: the claim states that `makeOneGlyph` returns null for
every location whose discrete part is illegal, a missing value failing the
check.  When the location names no declared discrete axis at all,
`splitLocation` returns a `None` discrete part (line 318) and
`checkDiscreteAxisValues(None)` evaluates `None.get(...)` on the first
declared discrete axis, raising an attribute error instead of returning
null: here axis "style" has no value in the location (an illegal discrete
part in the claim's sense) and the gate raises. -/
theorem C6_missing_discrete_part_raises :
    List.lookup "style" [("weight", PyVal.num 400)] = (none : Option PyVal) ∧
    makeOneGlyphCheck [axisStyle] [("weight", PyVal.num 400)] =
      Except.error "AttributeError: NoneType object has no attribute get" := by
  exact ⟨rfl, by decide⟩

/-- C6 amended: when the location does contain at least one declared
discrete axis name (so the discrete part of the split is non-null), the
up-front gate of `makeOneGlyph` returns null exactly when some declared
discrete axis has, in that discrete part, a missing value or a value outside
its legal set; only a location naming no declared discrete axis makes the
check raise instead. -/
theorem C6_gate_null_iff_illegal (axes : List Axis) (location : List (String × PyVal))
    (d : List (String × PyVal)) (hd : (splitLocation axes location).2 = some d) :
    makeOneGlyphCheck axes location = Except.ok none ↔
      ∃ a ∈ getOrderedDiscreteAxes axes, discreteValueOk a d = false := by
  simp only [makeOneGlyphCheck, checkDiscreteAxisValues]
  rw [hd, checkAux_some]
  cases hall : (getOrderedDiscreteAxes axes).all (fun a => discreteValueOk a d) with
  | false =>
    simp only [iff_true_intro rfl, true_iff]
    have hnall : ¬ ∀ a ∈ getOrderedDiscreteAxes axes, discreteValueOk a d = true := by
      rw [← List.all_eq_true]
      simp [hall]
    push_neg at hnall
    obtain ⟨a, hmem, hbad⟩ := hnall
    exact ⟨a, hmem, by simpa using hbad⟩
  | true =>
    constructor
    · intro hcontra
      exact absurd hcontra (by simp)
    · rintro ⟨a, hmem, hbad⟩
      have := List.all_eq_true.mp hall a hmem
      rw [hbad] at this
      cases this

/-- C6 witness: a location carrying the declared discrete axis "style" with
the illegal value 5 makes the gate return null. -/
theorem C6_gate_null_witness :
    makeOneGlyphCheck [axisStyle] [("style", PyVal.num 5)] = Except.ok none :=
  (C6_gate_null_iff_illegal [axisStyle] [("style", PyVal.num 5)]
      [("style", PyVal.num 5)] (by decide)).mpr
    ⟨axisStyle, List.mem_singleton.mpr rfl, by decide⟩

/-- C7 counterexample: the claim states that exactly the values making
`isAnisotropic` true (lists and tuples alike, via the isinstance test of
line 481) are split component-wise.  A list value makes `isAnisotropic`
report true, yet `splitAnisotropic` tests `type(val)==tuple` (line 491) and
copies the list unchanged to both sides instead of contributing its first
component to the horizontal side. -/
theorem C7_list_value_not_split :
    isAnisotropic [("weight", PyVal.lst 300 700)] = true ∧
    (splitAnisotropic [("weight", PyVal.lst 300 700)]).1 =
      [("weight", PyVal.lst 300 700)] ∧
    [("weight", PyVal.lst 300 700)] ≠ [("weight", PyVal.num 300)] := by
  exact ⟨rfl, rfl, by decide⟩

/-- C7 amended: `isAnisotropic` is true iff some value is a list or a tuple,
but only values of exact type tuple are split by `splitAnisotropic` (first
component to the horizontal side, second to the vertical side); scalar and
list values are copied unchanged to both sides. -/
theorem C7_split_semantics :
    (∀ loc : PyLoc, isAnisotropic loc = true ↔ ∃ p, p ∈ loc ∧ pyValIsPair p.2 = true) ∧
    (∀ (loc : PyLoc) (n : String) (a b : Int),
      List.lookup n loc = some (PyVal.tup a b) →
      List.lookup n (splitAnisotropic loc).1 = some (PyVal.num a) ∧
      List.lookup n (splitAnisotropic loc).2 = some (PyVal.num b)) ∧
    (∀ (loc : PyLoc) (n : String) (v : PyVal),
      List.lookup n loc = some v → pyValSplits v = false →
      List.lookup n (splitAnisotropic loc).1 = some v ∧
      List.lookup n (splitAnisotropic loc).2 = some v) := by
  refine ⟨?_, ?_, ?_⟩
  · intro loc
    show loc.any (fun p => pyValIsPair p.2) = true ↔ _
    rw [List.any_eq_true]
  · intro loc n a b h
    exact ⟨by rw [splitAnisotropic_fst_lookup, h]; rfl,
           by rw [splitAnisotropic_snd_lookup, h]; rfl⟩
  · intro loc n v h hv
    cases v with
    | num m =>
      exact ⟨by rw [splitAnisotropic_fst_lookup, h]; rfl,
             by rw [splitAnisotropic_snd_lookup, h]; rfl⟩
    | tup p q => simp [pyValSplits] at hv
    | lst p q =>
      exact ⟨by rw [splitAnisotropic_fst_lookup, h]; rfl,
             by rw [splitAnisotropic_snd_lookup, h]; rfl⟩

/-- C7 witness: at a location with a tuple-valued axis and a list-valued
axis, the tuple is split while the list is copied. -/
theorem C7_split_semantics_witness :
    List.lookup "w" (splitAnisotropic [("w", PyVal.tup 3 7), ("y", PyVal.lst 4 5)]).1 =
      some (PyVal.num 3) ∧
    List.lookup "y" (splitAnisotropic [("w", PyVal.tup 3 7), ("y", PyVal.lst 4 5)]).2 =
      some (PyVal.lst 4 5) :=
  ⟨(C7_split_semantics.2.1 [("w", PyVal.tup 3 7), ("y", PyVal.lst 4 5)] "w" 3 7
      (by decide)).1,
   (C7_split_semantics.2.2 [("w", PyVal.tup 3 7), ("y", PyVal.lst 4 5)] "y"
      (PyVal.lst 4 5) (by decide) (by decide)).2⟩

/-- C8: `getGlyphMutator` passes its kwargs-capture dictionary
`{"discreteLocation": D}` - not `D` itself - to `newDefaultLocation`, so as
long as no axis is literally named "discreteLocation" no axis name matches a
key of that argument and the computed bias equals the bent global default
location, identically for every discrete location `D`. -/
theorem C8_bias_is_global_default (axes : List Axis)
    (h : "discreteLocation" ∉ axes.map Axis.name) (D : List (String × Int)) :
    getGlyphMutatorBias axes D = newDefaultLocation axes true none := by
  unfold getGlyphMutatorBias newDefaultLocation
  induction axes with
  | nil => rfl
  | cons a rest ih =>
    simp only [List.map_cons, List.mem_cons, not_or] at h
    obtain ⟨hne, hrest⟩ := h
    have hb : (a.name == "discreteLocation") = false :=
      beq_eq_false_iff_ne.mpr (fun he => hne he.symm)
    simp only [newDefaultLocationAux, List.lookup, hb, ih hrest]

/-- C8 witness: with one continuous weight axis (default 400, doubling
forward map) and an arbitrary discrete location, the bias evaluates to the
bent global default. -/
theorem C8_bias_witness :
    getGlyphMutatorBias [axisWeightMapped] [("style", 1)] =
      newDefaultLocation [axisWeightMapped] true none ∧
    newDefaultLocation [axisWeightMapped] true none =
      Except.ok [("weight", BiasVal.num 800)] :=
  ⟨C8_bias_is_global_default [axisWeightMapped] (by decide) [("style", 1)], by decide⟩

/-- C10: whenever the loaded-fonts mapping contains a `None` entry (a source
whose file was missing at load time, recorded by `loadFonts`) and
`updateFonts` is called with a non-empty list of font objects, the inner
loop reads `haveFont.path` on the `None` entry and raises an attribute
error, so the font-update path is unusable. -/
theorem C10_updateFonts_none_raises (self : Nat)
    (fonts : List (String × Option FontRef)) (cache : List CacheKey)
    (nf : FontRef) (rest : List FontRef)
    (hnone : ∃ n, (n, (none : Option FontRef)) ∈ fonts) :
    updateFonts self fonts cache (nf :: rest) =
      Except.error "AttributeError: NoneType object has no attribute path" := by
  simp only [updateFonts, updateFontsLoop, updateFontsInner_none fonts nf hnone]

/-- C10 witness: one missing source recorded as `None` and one offered
replacement font make `updateFonts` raise. -/
theorem C10_updateFonts_witness :
    updateFonts 1 fontsMissing [] [{ objId := 7, path := "q.ufo" }] =
      Except.error "AttributeError: NoneType object has no attribute path" :=
  C10_updateFonts_none_raises 1 fontsMissing [] { objId := 7, path := "q.ufo" } []
    ⟨"gone", by decide⟩

end UFOP
